import Mathlib

/-!
Verification of the video-streaming client repository (Capacitor/React app).

Shallow embedding: each wrapper around a platform collaborator (ad SDK,
status-bar / fullscreen plugins, browser open, purchase RPC) is translated
into a pure Lean function over an explicit environment record.  The
environment says which platform the code runs on, which optional APIs are
available, and which underlying collaborator calls throw.  A wrapper returns
the ordered list of collaborator calls it performs (the await-sequenced
trace) together with an `Except String` outcome: `Except.error` means an
exception propagates out of the wrapper to its caller, `Except.ok` means the
wrapper completes normally.  Module-level mutable variables are modelled by
explicit state passing.
-/

namespace StreamApp

/-- Capacitor platform, as returned by `Capacitor.getPlatform()`. -/
inductive Platform
| android
| ios
| web
deriving DecidableEq, Repr

/-- Predicate `Capacitor.isNativePlatform()`: true exactly on android and ios. -/
def Platform.isNative : Platform → Bool
| .android => true
| .ios => true
| .web => false

/-- A try/catch block whose handler only logs: the events of the body are
kept and the wrapper completes normally whatever the body raised. -/
def catchLog {E α : Type} (dflt : α) (r : List E × Except String α) :
    List E × Except String α :=
  (r.1, match r.2 with
        | Except.ok v => Except.ok v
        | Except.error _ => Except.ok dflt)

/-! ## Status bar / immersive mode (useNativeStatusBar.tsx, useImmersiveMode.tsx) -/

/-- Environment for the status-bar and fullscreen wrappers. -/
structure SbEnv where
  platform : Platform
  /-- the boengli capacitor-fullscreen plugin loaded (android only path) -/
  fsPluginAvailable : Bool
  /-- call `StatusBar.hide()` rejects -/
  sbHideThrows : Bool
  /-- call `StatusBar.show()` rejects -/
  sbShowThrows : Bool
  /-- property `container.requestFullscreen` exists -/
  supportsReqFs : Bool
  supportsWebkitReqFs : Bool
  supportsMozReqFs : Bool
  supportsMsReqFs : Bool
  /-- request with the navigationUI hide option rejects -/
  reqFsOptsThrows : Bool
  /-- the plain (or vendor-prefixed) fullscreen request rejects -/
  reqFsThrows : Bool
deriving DecidableEq, Repr

/-- Platform call events emitted by the status-bar / immersive wrappers. -/
inductive NEvent
| pluginActivateImmersive
| pluginDeactivateImmersive
| sbHide
| sbShow
| delayMs (n : Nat)
| lockOrientationCb
| reqFullscreenOpts
| reqFullscreen
| reqFullscreenWebkit
| reqFullscreenMoz
| reqFullscreenMs
| exitFullscreenCall
| exitFullscreenWebkit
| exitFullscreenMoz
| exitFullscreenMs
deriving DecidableEq, Repr

/-- Body of `hideStatusBar` (inside its try): on android with the fullscreen
plugin loaded, fire the plugin call (its own errors are swallowed by an inner
try/catch and it is deliberately not awaited), wait 100 ms and return;
otherwise `await StatusBar.hide()`, which may reject. -/
def hideStatusBarBody (env : SbEnv) : List NEvent × Except String Unit :=
  if env.platform = Platform.android && env.fsPluginAvailable then
    ([NEvent.pluginActivateImmersive, NEvent.delayMs 100], Except.ok ())
  else
    ([NEvent.sbHide],
     if env.sbHideThrows then Except.error "StatusBar.hide" else Except.ok ())

/-- Function `hideStatusBar` from useNativeStatusBar.tsx: early return off-native,
body wrapped in a log-and-continue try/catch. -/
def hideStatusBar (env : SbEnv) : List NEvent × Except String Unit :=
  if env.platform.isNative = false then ([], Except.ok ())
  else catchLog () (hideStatusBarBody env)

/-- Body of `showStatusBar` (inside its try). -/
def showStatusBarBody (env : SbEnv) : List NEvent × Except String Unit :=
  if env.platform = Platform.android && env.fsPluginAvailable then
    ([NEvent.pluginDeactivateImmersive, NEvent.delayMs 100], Except.ok ())
  else
    ([NEvent.sbShow],
     if env.sbShowThrows then Except.error "StatusBar.show" else Except.ok ())

/-- Function `showStatusBar` from useNativeStatusBar.tsx. -/
def showStatusBar (env : SbEnv) : List NEvent × Except String Unit :=
  if env.platform.isNative = false then ([], Except.ok ())
  else catchLog () (showStatusBarBody env)

/-- STEP 4 of `enterVideoFullscreen`: the fullscreen request on the container.
The standard API is first tried with `navigationUI: hide`; if that rejects,
the same request is retried without options (inner catch).  Vendor-prefixed
fallbacks are used when the standard API is absent. -/
def requestFullscreenOnContainer (env : SbEnv) :
    List NEvent × Except String Unit :=
  if env.supportsReqFs then
    if env.reqFsOptsThrows then
      ([NEvent.reqFullscreenOpts, NEvent.reqFullscreen],
       if env.reqFsThrows then Except.error "requestFullscreen" else Except.ok ())
    else
      ([NEvent.reqFullscreenOpts], Except.ok ())
  else if env.supportsWebkitReqFs then
    ([NEvent.reqFullscreenWebkit],
     if env.reqFsThrows then Except.error "webkitRequestFullscreen" else Except.ok ())
  else if env.supportsMozReqFs then
    ([NEvent.reqFullscreenMoz],
     if env.reqFsThrows then Except.error "mozRequestFullScreen" else Except.ok ())
  else if env.supportsMsReqFs then
    ([NEvent.reqFullscreenMs],
     if env.reqFsThrows then Except.error "msRequestFullscreen" else Except.ok ())
  else
    ([], Except.ok ())

/-- Function `enterVideoFullscreen` from useImmersiveMode.tsx.  On a native platform:
run the caller-supplied orientation-lock callback (modelled as completing
normally) followed by a 150 ms settle delay when supplied, then
`await hideStatusBar()`, then a 50 ms delay; finally (on every platform)
request fullscreen on the container inside a log-and-continue try/catch.
The awaits make the steps strictly sequential, so the emitted trace is the
concatenation of the step traces in program order. -/
def enterVideoFullscreen (env : SbEnv) (hasLockCb : Bool) :
    List NEvent × Except String Unit :=
  let pre : List NEvent :=
    if env.platform.isNative then
      (if hasLockCb then [NEvent.lockOrientationCb, NEvent.delayMs 150] else [])
        ++ (hideStatusBar env).1 ++ [NEvent.delayMs 50]
    else []
  let r := catchLog () (requestFullscreenOnContainer env)
  (pre ++ r.1, r.2)

/-- Body of `enterImmersiveFullscreen` (useNativeStatusBar.tsx). -/
def enterImmersiveFullscreenBody (env : SbEnv) : List NEvent × Except String Unit :=
  if env.platform = Platform.android && env.fsPluginAvailable then
    ([NEvent.pluginActivateImmersive, NEvent.delayMs 100], Except.ok ())
  else
    ([NEvent.sbHide],
     if env.sbHideThrows then Except.error "StatusBar.hide" else Except.ok ())

/-- Function `enterImmersiveFullscreen` from useNativeStatusBar.tsx. -/
def enterImmersiveFullscreen (env : SbEnv) : List NEvent × Except String Unit :=
  if env.platform.isNative = false then ([], Except.ok ())
  else catchLog () (enterImmersiveFullscreenBody env)

/-- Body of `exitImmersiveFullscreen` (useNativeStatusBar.tsx). -/
def exitImmersiveFullscreenBody (env : SbEnv) : List NEvent × Except String Unit :=
  if env.platform = Platform.android && env.fsPluginAvailable then
    ([NEvent.pluginDeactivateImmersive, NEvent.delayMs 100], Except.ok ())
  else
    ([NEvent.sbShow],
     if env.sbShowThrows then Except.error "StatusBar.show" else Except.ok ())

/-- Function `exitImmersiveFullscreen` from useNativeStatusBar.tsx. -/
def exitImmersiveFullscreen (env : SbEnv) : List NEvent × Except String Unit :=
  if env.platform.isNative = false then ([], Except.ok ())
  else catchLog () (exitImmersiveFullscreenBody env)

/-- The plain web fullscreen-request chain used by `enterImmersiveMode`
(no navigationUI options, no retry). -/
def webEnterFullscreenChain (env : SbEnv) : List NEvent × Except String Unit :=
  if env.supportsReqFs then
    ([NEvent.reqFullscreen],
     if env.reqFsThrows then Except.error "requestFullscreen" else Except.ok ())
  else if env.supportsWebkitReqFs then
    ([NEvent.reqFullscreenWebkit],
     if env.reqFsThrows then Except.error "webkitRequestFullscreen" else Except.ok ())
  else if env.supportsMozReqFs then
    ([NEvent.reqFullscreenMoz],
     if env.reqFsThrows then Except.error "mozRequestFullScreen" else Except.ok ())
  else if env.supportsMsReqFs then
    ([NEvent.reqFullscreenMs],
     if env.reqFsThrows then Except.error "msRequestFullscreen" else Except.ok ())
  else
    ([], Except.ok ())

/-- Function `enterImmersiveMode` from useImmersiveMode.tsx: on native, the plugin
entry wrapped in a log-only try/catch; then the Web Fullscreen API chain,
also wrapped in a log-only try/catch. -/
def enterImmersiveMode (env : SbEnv) : List NEvent × Except String Unit :=
  let a :=
    if env.platform.isNative then catchLog () (enterImmersiveFullscreen env)
    else ([], Except.ok ())
  let b := catchLog () (webEnterFullscreenChain env)
  (a.1 ++ b.1, b.2)

/-- Exit-side environment flags for the web exitFullscreen chain. -/
structure ExitEnv where
  /-- property `document.fullscreenElement` is non-null -/
  fullscreenElementPresent : Bool
  supportsWebkitExit : Bool
  supportsMozExit : Bool
  supportsMsExit : Bool
  exitFsThrows : Bool
deriving DecidableEq, Repr

/-- Web exit-fullscreen chain used by `exitImmersiveMode`. -/
def webExitFullscreenChain (env : ExitEnv) : List NEvent × Except String Unit :=
  if env.fullscreenElementPresent then
    ([NEvent.exitFullscreenCall],
     if env.exitFsThrows then Except.error "exitFullscreen" else Except.ok ())
  else if env.supportsWebkitExit then
    ([NEvent.exitFullscreenWebkit],
     if env.exitFsThrows then Except.error "webkitExitFullscreen" else Except.ok ())
  else if env.supportsMozExit then
    ([NEvent.exitFullscreenMoz],
     if env.exitFsThrows then Except.error "mozCancelFullScreen" else Except.ok ())
  else if env.supportsMsExit then
    ([NEvent.exitFullscreenMs],
     if env.exitFsThrows then Except.error "msExitFullscreen" else Except.ok ())
  else
    ([], Except.ok ())

/-- Function `exitImmersiveMode` from useImmersiveMode.tsx. -/
def exitImmersiveMode (env : SbEnv) (ex : ExitEnv) : List NEvent × Except String Unit :=
  let a :=
    if env.platform.isNative then catchLog () (exitImmersiveFullscreen env)
    else ([], Except.ok ())
  let b := catchLog () (webExitFullscreenChain ex)
  (a.1 ++ b.1, b.2)

/-! ## AdMob service wrappers (src/services/admobService.ts) -/

/-- Test ad unit id used for banners (the source always reads the android
entry of its AD_UNITS table). -/
def androidBannerAdUnit : String := "ca-app-pub-3940256099942544/6300978111"

/-- Test ad unit id used for interstitials. -/
def androidInterstitialAdUnit : String := "ca-app-pub-3940256099942544/1033173712"

/-- Test ad unit id used for rewarded ads. -/
def androidRewardedAdUnit : String := "ca-app-pub-3940256099942544/5224354917"

/-- Environment for the admobService wrappers. -/
structure AdEnv where
  /-- result of `isNativeApp()` -/
  native : Bool
  /-- call `AdMob.initialize` rejects -/
  adInitThrows : Bool
  showBannerThrows : Bool
  hideBannerThrows : Bool
  prepareInterstitialThrows : Bool
  showInterstitialThrows : Bool
  addListenerThrows : Bool
  prepareRewardThrows : Bool
  showRewardThrows : Bool
  /-- reward amount delivered by the Rewarded plugin event -/
  rewardAmount : Nat
deriving DecidableEq, Repr

/-- Ad SDK calls made by the admobService wrappers. -/
inductive AdCall
| initCall
| showBannerCall (adId : String) (posTop : Bool) (testing : Bool)
| hideBannerCall
| prepareInterstitialCall (adId : String)
| showInterstitialCall
| addRewardListenerCall
| prepareRewardCall (adId : String)
| showRewardCall
deriving DecidableEq, Repr

/-- Function `showBannerAd`: early return off-native, then
`AdMob.showBanner` with the android test banner unit inside a
log-and-continue try/catch. -/
def showBannerAd (env : AdEnv) (posTop : Bool) : List AdCall × Except String Unit :=
  if env.native = false then ([], Except.ok ())
  else
    catchLog ()
      ([AdCall.showBannerCall androidBannerAdUnit posTop true],
       if env.showBannerThrows then Except.error "AdMob.showBanner" else Except.ok ())

/-- Function `hideBannerAd` from admobService.ts. -/
def hideBannerAd (env : AdEnv) : List AdCall × Except String Unit :=
  if env.native = false then ([], Except.ok ())
  else
    catchLog ()
      ([AdCall.hideBannerCall],
       if env.hideBannerThrows then Except.error "AdMob.hideBanner" else Except.ok ())

/-- Body of `showInterstitialAd`: `await prepareInterstitial` then
`await showInterstitial`; a rejection at either point aborts the rest of
the body. -/
def showInterstitialAdBody (env : AdEnv) : List AdCall × Except String Unit :=
  if env.prepareInterstitialThrows then
    ([AdCall.prepareInterstitialCall androidInterstitialAdUnit],
     Except.error "AdMob.prepareInterstitial")
  else
    ([AdCall.prepareInterstitialCall androidInterstitialAdUnit,
      AdCall.showInterstitialCall],
     if env.showInterstitialThrows then Except.error "AdMob.showInterstitial"
     else Except.ok ())

/-- Function `showInterstitialAd` from admobService.ts. -/
def showInterstitialAd (env : AdEnv) : List AdCall × Except String Unit :=
  if env.native = false then ([], Except.ok ())
  else catchLog () (showInterstitialAdBody env)

/-- Function `showRewardedAd` from admobService.ts: off-native resolves null;
otherwise register the reward listener, prepare and show the rewarded video.
Any rejection is caught and resolves null; on success the promise resolves
with the reward delivered by the plugin event (modelled as firing). -/
def showRewardedAd (env : AdEnv) : List AdCall × Except String (Option Nat) :=
  if env.native = false then ([], Except.ok none)
  else if env.addListenerThrows then
    ([AdCall.addRewardListenerCall], Except.ok none)
  else if env.prepareRewardThrows then
    ([AdCall.addRewardListenerCall, AdCall.prepareRewardCall androidRewardedAdUnit],
     Except.ok none)
  else if env.showRewardThrows then
    ([AdCall.addRewardListenerCall, AdCall.prepareRewardCall androidRewardedAdUnit,
      AdCall.showRewardCall],
     Except.ok none)
  else
    ([AdCall.addRewardListenerCall, AdCall.prepareRewardCall androidRewardedAdUnit,
      AdCall.showRewardCall],
     Except.ok (some env.rewardAmount))

/-- One call of `initializeAdMob` from admobService.ts over the module-level
`isInitialized` flag: off-native or already-initialized returns immediately
with no SDK call; otherwise `AdMob.initialize` is invoked and the flag is set
only when that call succeeds (a rejection is caught and logged). -/
def initAdMobStep (env : AdEnv) (flagSet : Bool) : Bool × List AdCall :=
  if env.native = false || flagSet then (flagSet, [])
  else if env.adInitThrows then (false, [AdCall.initCall])
  else (true, [AdCall.initCall])

/-- Number of successful `AdMob.initialize` invocations over a session of
`initializeAdMob` calls, threading the module-level flag. -/
def initSuccesses : List AdEnv → Bool → Nat
| [], _ => 0
| env :: rest, flagSet =>
    (if flagSet = false && env.native && !env.adInitThrows then 1 else 0)
      + initSuccesses rest (initAdMobStep env flagSet).1

/-! ## Native banner ad slot (NativeBannerAdSlot component) -/

/-- Row of the app_ads table, as the slot uses it. -/
structure AppAd where
  adUnitId : String
  isTestMode : Bool
deriving DecidableEq, Repr

/-- Global ad settings row. -/
structure AdMobSettings where
  enabled : Bool
  testMode : Bool
deriving DecidableEq, Repr

/-- Loaded ad configuration held in the adConfig state. -/
structure AdCfg where
  ad : AppAd
  settings : AdMobSettings
deriving DecidableEq, Repr

/-- Component state of NativeBannerAdSlot that the visibility controller
reads and writes. -/
structure SlotState where
  bannerShown : Bool
  adConfig : Option AdCfg
deriving DecidableEq, Repr

/-- Environment of one visibility-driven update. -/
structure SlotEnv where
  /-- window AdMob plugin resolves to a non-null object -/
  pluginAvailable : Bool
  sdkShowThrows : Bool
  sdkHideThrows : Bool
deriving DecidableEq, Repr

/-- Ad SDK calls made by the slot. -/
inductive SlotCall
| sdkShowBanner (adId : String) (posTop : Bool) (testing : Bool)
| sdkHideBanner
deriving DecidableEq, Repr

/-- Callback `showBanner` of NativeBannerAdSlot: guarded by
`!adConfig || bannerShown || !isInView` and by plugin availability; on a
successful SDK call the shown flag is set, a rejection is caught and leaves
the flag unchanged. -/
def slotShowBanner (st : SlotState) (inView posTop : Bool) (env : SlotEnv) :
    SlotState × List SlotCall :=
  match st.adConfig with
  | none => (st, [])
  | some cfg =>
    if st.bannerShown || !inView then (st, [])
    else if !env.pluginAvailable then (st, [])
    else
      let useTestMode := cfg.settings.testMode || cfg.ad.isTestMode
      let call := SlotCall.sdkShowBanner cfg.ad.adUnitId posTop useTestMode
      if env.sdkShowThrows then (st, [call])
      else ({ st with bannerShown := true }, [call])

/-- Callback `hideBanner` of NativeBannerAdSlot: returns early when the
banner is not shown or the plugin is unavailable; on a successful SDK call
the shown flag is cleared, a rejection is caught and leaves it set. -/
def slotHideBanner (st : SlotState) (env : SlotEnv) : SlotState × List SlotCall :=
  if !st.bannerShown then (st, [])
  else if !env.pluginAvailable then (st, [])
  else if env.sdkHideThrows then (st, [SlotCall.sdkHideBanner])
  else ({ st with bannerShown := false }, [SlotCall.sdkHideBanner])

/-- The show/hide effect of NativeBannerAdSlot reacting to one
viewport-intersection report: `if (!isNative || !adConfig) return;
if (isInView) showBanner(); else if (bannerShown) hideBanner();`. -/
def slotVisibilityEffect (isNative : Bool) (st : SlotState)
    (inView posTop : Bool) (env : SlotEnv) : SlotState × List SlotCall :=
  if !isNative || st.adConfig.isNone then (st, [])
  else if inView then slotShowBanner st inView posTop env
  else if st.bannerShown then slotHideBanner st env
  else (st, [])

/-! ## Membership purchase (MobileVIPPanel.tsx handlePurchase) -/

/-- Membership plan row fields used by the purchase handler.  Prices are
modelled as rationals (the source compares and forwards plain numbers). -/
structure MembershipPlan where
  planId : String
  name : String
  price : Rat
deriving DecidableEq, Repr

/-- Environment of the purchase handler: whether the RPC rejects or returns
an error object. -/
structure PurchaseEnv where
  rpcThrows : Bool
deriving DecidableEq, Repr

/-- Observable actions of the purchase handler: the backend RPC and the
toast notifications. -/
inductive PurchaseAction
| rpc (fname : String) (pUserId pPlanId : String) (pAmount : Rat)
| toastInsufficientBalance
| toastVipActivated (planName : String)
| toastFailed
deriving DecidableEq, Repr

/-- Function `handlePurchase` from MobileVIPPanel.tsx: returns immediately
unless a plan is selected and a user is signed in; below the plan price it
shows the insufficient-balance toast and makes no RPC; otherwise it calls
the `purchase_membership_with_wallet` RPC with the user id, the plan id and
the plan price, toasting success or failure.  The surrounding try/catch
always completes normally. -/
def handlePurchase (user : Option String) (selectedPlan : Option MembershipPlan)
    (walletBalance : Rat) (env : PurchaseEnv) :
    List PurchaseAction × Except String Unit :=
  match selectedPlan, user with
  | some plan, some uid =>
    if walletBalance < plan.price then
      ([PurchaseAction.toastInsufficientBalance], Except.ok ())
    else
      let call := PurchaseAction.rpc "purchase_membership_with_wallet"
        uid plan.planId plan.price
      if env.rpcThrows then ([call, PurchaseAction.toastFailed], Except.ok ())
      else ([call, PurchaseAction.toastVipActivated plan.name], Except.ok ())
  | _, _ => ([], Except.ok ())

/-! ## Native video open (useExoPlayer.tsx playWithExoPlayer) -/

/-- One `Browser.open` invocation with the options the source passes. -/
structure BrowserOpenCall where
  url : String
  /-- presentationStyle fullscreen was passed -/
  fullscreenStyle : Bool
  toolbarColor : Option String
deriving DecidableEq, Repr

/-- Environment for `playWithExoPlayer`: whether the first styled open and
the plain fallback open reject. -/
structure ExoEnv where
  openWithOptsThrows : Bool
  openPlainThrows : Bool
deriving DecidableEq, Repr

/-- Function `playWithExoPlayer` from useExoPlayer.tsx: off-native it makes
no open call and returns false.  On android it opens the video URL with
fullscreen presentation and a toolbar color; if that rejects, the inner
catch retries a plain `Browser.open` with the same URL, and only if that
also rejects does the outer catch return false.  On iOS a single fullscreen
open is made.  The URL is passed through unmodified in every call. -/
def playWithExoPlayer (platform : Platform) (videoUrl : String) (env : ExoEnv) :
    Bool × List BrowserOpenCall :=
  if platform.isNative = false then (false, [])
  else if platform = Platform.android then
    let first : BrowserOpenCall :=
      { url := videoUrl, fullscreenStyle := true, toolbarColor := some "#000000" }
    if env.openWithOptsThrows then
      let second : BrowserOpenCall :=
        { url := videoUrl, fullscreenStyle := false, toolbarColor := none }
      if env.openPlainThrows then (false, [first, second])
      else (true, [first, second])
    else (true, [first])
  else if platform = Platform.ios then
    let call : BrowserOpenCall :=
      { url := videoUrl, fullscreenStyle := true, toolbarColor := none }
    if env.openWithOptsThrows then (false, [call]) else (true, [call])
  else (false, [])

/-! ## Global fullscreen state module (useFullscreenState.tsx) -/

/-- Module-level state of useFullscreenState.tsx: the `globalIsFullscreen`
variable and the `listeners` set (listeners identified by number). -/
structure FullscreenModuleState where
  globalIsFullscreen : Bool
  listeners : List Nat
deriving DecidableEq, Repr

/-- Module load: flag false, no listeners. -/
def fullscreenModuleInit : FullscreenModuleState :=
  { globalIsFullscreen := false, listeners := [] }

/-- Function `getGlobalFullscreenState`. -/
def getGlobalFullscreenState (s : FullscreenModuleState) : Bool :=
  s.globalIsFullscreen

/-- Function `setGlobalFullscreenState`: stores the value in the module
variable and notifies every registered listener with it. -/
def setGlobalFullscreenState (v : Bool) (s : FullscreenModuleState) :
    FullscreenModuleState × List (Nat × Bool) :=
  ({ s with globalIsFullscreen := v }, s.listeners.map (fun l => (l, v)))

/-- Listener registration performed by the useFullscreenState hook
(`listeners.add`, a JS Set insertion). -/
def addFullscreenListener (l : Nat) (s : FullscreenModuleState) :
    FullscreenModuleState :=
  if l ∈ s.listeners then s else { s with listeners := s.listeners ++ [l] }

/-- Environment of `toggleFullscreen` from useFullscreenState.tsx. -/
structure ToggleEnv where
  /-- a fullscreen element is reported by the document, i.e. the observed
  pre-state is fullscreen -/
  fullscreenElementPresent : Bool
  /-- property `document.exitFullscreen` exists -/
  exitFsSupported : Bool
  webkitExitSupported : Bool
  /-- property `target.requestFullscreen` exists -/
  reqFsSupported : Bool
  webkitReqSupported : Bool
  /-- the underlying enter/exit call rejects -/
  callThrows : Bool
deriving DecidableEq, Repr

/-- Function `toggleFullscreen` from useFullscreenState.tsx: observe the
current fullscreen state; in fullscreen run the exit chain and return false,
otherwise run the request chain and return true; a rejection anywhere is
caught and the observed pre-state is returned unchanged. -/
def toggleFullscreen (env : ToggleEnv) : Bool :=
  let isCurrentlyFullscreen := env.fullscreenElementPresent
  if isCurrentlyFullscreen then
    if env.exitFsSupported then
      if env.callThrows then isCurrentlyFullscreen else false
    else if env.webkitExitSupported then
      if env.callThrows then isCurrentlyFullscreen else false
    else false
  else
    if env.reqFsSupported then
      if env.callThrows then isCurrentlyFullscreen else true
    else if env.webkitReqSupported then
      if env.callThrows then isCurrentlyFullscreen else true
    else true

/-! ## Dashboard-configured ad service (module with cachedSettings) -/

/-- Global settings the dashboard ad service caches. -/
structure DashAdSettings where
  enabled : Bool
  testMode : Bool
deriving DecidableEq, Repr

/-- Module-level state of the dashboard ad service: the `isInitialized`
flag and the `cachedSettings` variable. -/
structure DashAdState where
  flagSet : Bool
  cachedSettings : Option DashAdSettings
deriving DecidableEq, Repr

/-- Module load: not initialized, nothing cached. -/
def dashAdModuleInit : DashAdState :=
  { flagSet := false, cachedSettings := none }

/-- Function `fetchSettings` of the dashboard ad service: off-native returns
null; a failed fetch is caught, returns null and leaves the cache alone; a
successful fetch stores the fetched settings in the module-level
`cachedSettings` and returns them. -/
def fetchSettingsStep (native fetchThrows : Bool) (fetched : DashAdSettings)
    (st : DashAdState) : DashAdState × Option DashAdSettings :=
  if native = false then (st, none)
  else if fetchThrows then (st, none)
  else ({ st with cachedSettings := some fetched }, some fetched)

/-- Function `isAdsEnabled`: reads the cached settings, defaulting false. -/
def isAdsEnabled (st : DashAdState) : Bool :=
  match st.cachedSettings with
  | some s => s.enabled
  | none => false

/-- Function `isTestModeEnabled`: reads the cached settings, defaulting true. -/
def isTestModeEnabled (st : DashAdState) : Bool :=
  match st.cachedSettings with
  | some s => s.testMode
  | none => true

/-! ## Tablet-landscape detection (use-tablet-landscape.tsx) -/

/-- Constant MIN_TABLET_WIDTH. -/
def MIN_TABLET_WIDTH : Nat := 768

/-- Constant MAX_TABLET_WIDTH. -/
def MAX_TABLET_WIDTH : Nat := 1279

/-- Body of `checkIsTabletLandscape` from use-tablet-landscape.tsx, on the
window inner width and height in pixels. -/
def checkIsTabletLandscape (width height : Nat) : Bool :=
  let isLandscape := decide (width > height)
  let shorterDimension := min width height
  let isTabletDevice :=
    decide (shorterDimension ≥ MIN_TABLET_WIDTH)
      && decide (shorterDimension ≤ MAX_TABLET_WIDTH)
  let widthAboveTabletPortrait := decide (width > MAX_TABLET_WIDTH)
  isLandscape
    && (isTabletDevice
        || (decide (shorterDimension ≥ MIN_TABLET_WIDTH) && widthAboveTabletPortrait))

/-- Test whether a purchase action is the backend RPC. -/
def PurchaseAction.isRpcCall : PurchaseAction → Bool
| .rpc _ _ _ _ => true
| _ => false

/-! ## Theorems -/

/-- Helper: a log-and-continue try/catch over a Unit-valued body always
completes normally. -/
theorem catchLog_unit_ok {E : Type} (r : List E × Except String Unit) :
    (catchLog () r).2 = Except.ok () := by
  rcases r with ⟨t, o⟩
  cases o with
  | ok v => cases v; rfl
  | error e => rfl

/-- C10: the tablet-landscape detector classifies a window as
tablet-landscape exactly when width > height and either the shorter
dimension lies in the range 768 to 1279 pixels, or the shorter dimension is
at least 768 pixels and the width exceeds 1279 pixels; in particular a
landscape window of 2000 by 1300 pixels, whose shorter dimension exceeds
1279, is still classified as tablet-landscape. -/
theorem tabletLandscape_matches_spec :
    (∀ width height : Nat, checkIsTabletLandscape width height = true ↔
      (width > height ∧
        ((768 ≤ min width height ∧ min width height ≤ 1279) ∨
          (768 ≤ min width height ∧ width > 1279)))) ∧
    checkIsTabletLandscape 2000 1300 = true := by
  constructor
  · intro width height
    simp [checkIsTabletLandscape, MIN_TABLET_WIDTH, MAX_TABLET_WIDTH]
  · decide

/-- C8: toggleFullscreen returns the negation of the fullscreen state it
observed on entry when the underlying enter/exit call succeeds (true after
entering, false after exiting), and when the underlying call throws it
returns the unchanged observed pre-state.  The hypothesis says an enter or
exit API is available, so an underlying call is actually made. -/
theorem toggleFullscreen_result (env : ToggleEnv)
    (hcall : (if env.fullscreenElementPresent
              then env.exitFsSupported || env.webkitExitSupported
              else env.reqFsSupported || env.webkitReqSupported) = true) :
    (env.callThrows = false →
       toggleFullscreen env = !env.fullscreenElementPresent) ∧
    (env.callThrows = true →
       toggleFullscreen env = env.fullscreenElementPresent) := by
  rcases env with ⟨p, e, w, r, wq, t⟩
  cases p <;> cases e <;> cases w <;> cases r <;> cases wq <;> cases t <;>
    simp_all [toggleFullscreen]

/-- Witness for C8 at a concrete environment: with the standard APIs
available, a successful toggle from fullscreen returns false and a throwing
toggle from fullscreen returns true. -/
theorem toggleFullscreen_result_witness :
    toggleFullscreen ⟨true, true, false, true, false, false⟩ = false ∧
    toggleFullscreen ⟨true, true, false, true, false, true⟩ = true :=
  ⟨(toggleFullscreen_result ⟨true, true, false, true, false, false⟩ (by decide)).1 rfl,
   (toggleFullscreen_result ⟨true, true, false, true, false, true⟩ (by decide)).2 rfl⟩

/-- C7: playWithExoPlayer hands the video URL unmodified as the url argument
of every browser open call; on android the result is true exactly when the
styled open or its plain fallback succeeds, on iOS exactly when the single
open succeeds; on a non-native platform it performs no open call and
returns false. -/
theorem playWithExoPlayer_url_passthrough (p : Platform) (url : String)
    (env : ExoEnv) :
    (p.isNative = false → playWithExoPlayer p url env = (false, [])) ∧
    (∀ c ∈ (playWithExoPlayer p url env).2, c.url = url) ∧
    (p = Platform.android →
       (playWithExoPlayer p url env).1 =
         (!env.openWithOptsThrows || !env.openPlainThrows)) ∧
    (p = Platform.ios →
       (playWithExoPlayer p url env).1 = !env.openWithOptsThrows) := by
  rcases env with ⟨t1, t2⟩
  cases p <;> cases t1 <;> cases t2 <;>
    simp [playWithExoPlayer, Platform.isNative]

/-- Witness for C7 at concrete inputs: on android with a succeeding open the
call list is the single styled open of the given URL and the result is true;
off-native nothing is opened and the result is false. -/
theorem playWithExoPlayer_url_passthrough_witness :
    (playWithExoPlayer Platform.android "https://cdn.example/v.mp4"
        ⟨false, false⟩).1 = (!false || !false) ∧
    playWithExoPlayer Platform.web "https://cdn.example/v.mp4" ⟨false, false⟩
      = (false, []) :=
  ⟨(playWithExoPlayer_url_passthrough Platform.android "https://cdn.example/v.mp4"
      ⟨false, false⟩).2.2.1 rfl,
   (playWithExoPlayer_url_passthrough Platform.web "https://cdn.example/v.mp4"
      ⟨false, false⟩).1 rfl⟩

/-- C6 counterexample: module-level mutable state does persist across
operations.  After setGlobalFullscreenState true, a later read of the
module-level flag observes true where a fresh module observes false; and
after a successful fetchSettings, isAdsEnabled reads the module-level
cachedSettings object written by the earlier call.  This refutes the claim
that no module-level mutable variable acts as client-side cache or state
persisting across screens and operations. -/
theorem global_fullscreen_flag_persists :
    getGlobalFullscreenState (setGlobalFullscreenState true fullscreenModuleInit).1
        = true ∧
    getGlobalFullscreenState fullscreenModuleInit = false ∧
    isAdsEnabled (fetchSettingsStep true false ⟨true, false⟩ dashAdModuleInit).1
        = true ∧
    isAdsEnabled dashAdModuleInit = false :=
  ⟨rfl, rfl, rfl, rfl⟩

/-- C6 amended: module-level mutable state exists and persists: the global
fullscreen flag retains the last written value and setGlobalFullscreenState
notifies every listener in the module-level listener set; the dashboard ad
service stores fetched settings in the module-level cachedSettings variable,
which isAdsEnabled and isTestModeEnabled read on later calls without
refetching.  Remaining component state is per-screen React state. -/
theorem module_level_state_persists (s : FullscreenModuleState) (v : Bool)
    (st : DashAdState) (fetched : DashAdSettings) :
    getGlobalFullscreenState (setGlobalFullscreenState v s).1 = v ∧
    (setGlobalFullscreenState v s).2 = s.listeners.map (fun l => (l, v)) ∧
    (setGlobalFullscreenState v s).1.listeners = s.listeners ∧
    (fetchSettingsStep true false fetched st).1.cachedSettings = some fetched ∧
    isAdsEnabled (fetchSettingsStep true false fetched st).1 = fetched.enabled ∧
    isTestModeEnabled (fetchSettingsStep true false fetched st).1 = fetched.testMode :=
  ⟨rfl, rfl, rfl, rfl, rfl, rfl⟩

/-- C1: for a signed-in user and a selected plan, the purchase handler calls
the purchase_membership_with_wallet RPC with exactly p_user_id the user id,
p_plan_id the selected plan id and p_amount the plan price; any RPC it makes
arises that way and only when the locally fetched wallet balance is at least
the plan price; when the balance is below the price it makes no RPC call and
shows only the insufficient-balance notification. -/
theorem handlePurchase_rpc_correct (user : Option String)
    (plan? : Option MembershipPlan) (bal : Rat) (env : PurchaseEnv) :
    (∀ f u p a,
       PurchaseAction.rpc f u p a ∈ (handlePurchase user plan? bal env).1 →
       ∃ uid plan, user = some uid ∧ plan? = some plan ∧ plan.price ≤ bal ∧
         f = "purchase_membership_with_wallet" ∧ u = uid ∧ p = plan.planId ∧
         a = plan.price) ∧
    (∀ uid plan, user = some uid → plan? = some plan → plan.price ≤ bal →
       PurchaseAction.rpc "purchase_membership_with_wallet" uid plan.planId
         plan.price ∈ (handlePurchase user plan? bal env).1) ∧
    (∀ uid plan, user = some uid → plan? = some plan → bal < plan.price →
       (handlePurchase user plan? bal env).1 =
         [PurchaseAction.toastInsufficientBalance]) := by
  refine ⟨?_, ?_, ?_⟩
  · intro f u p a hmem
    match plan?, user with
    | none, _ => simp [handlePurchase] at hmem
    | some plan, none => simp [handlePurchase] at hmem
    | some plan, some uid =>
      by_cases hb : bal < plan.price
      · simp [handlePurchase, hb] at hmem
      · cases henv : env.rpcThrows <;>
          simp [handlePurchase, hb, henv] at hmem <;>
          exact ⟨uid, plan, rfl, rfl, not_lt.mp hb,
            hmem.1, hmem.2.1, hmem.2.2.1, hmem.2.2.2⟩
  · rintro uid plan rfl rfl hle
    have hb : ¬ bal < plan.price := not_lt.mpr hle
    cases henv : env.rpcThrows <;> simp [handlePurchase, hb, henv]
  · rintro uid plan rfl rfl hlt
    simp [handlePurchase, hlt]

/-- Witness for C1 at concrete inputs: with a 10-dollar balance and a
5-dollar plan the RPC is made with the exact arguments; with a 3-dollar
balance the trace is exactly the insufficient-balance toast. -/
theorem handlePurchase_rpc_correct_witness :
    PurchaseAction.rpc "purchase_membership_with_wallet" "user-1" "plan-1" 5
      ∈ (handlePurchase (some "user-1") (some ⟨"plan-1", "Gold", 5⟩) 10
          ⟨false⟩).1 ∧
    (handlePurchase (some "user-1") (some ⟨"plan-1", "Gold", 5⟩) 3
        ⟨false⟩).1 = [PurchaseAction.toastInsufficientBalance] :=
  ⟨(handlePurchase_rpc_correct (some "user-1") (some ⟨"plan-1", "Gold", 5⟩) 10
      ⟨false⟩).2.1 "user-1" ⟨"plan-1", "Gold", 5⟩ rfl rfl (by norm_num),
   (handlePurchase_rpc_correct (some "user-1") (some ⟨"plan-1", "Gold", 5⟩) 3
      ⟨false⟩).2.2 "user-1" ⟨"plan-1", "Gold", 5⟩ rfl rfl (by norm_num)⟩

/-- C2: on a native platform with the orientation-lock callback supplied,
enterVideoFullscreen performs its platform calls in the fixed order: the
orientation-lock callback, a 150 ms delay, the status-bar hide (whatever
calls hideStatusBar makes in the environment), a 50 ms delay, and only then
the fullscreen request on the container.  The trace is the concatenation of
the step traces in program order because every step is awaited before the
next one starts. -/
theorem enterVideoFullscreen_native_sequence (env : SbEnv)
    (h : env.platform.isNative = true) :
    (enterVideoFullscreen env true).1 =
      NEvent.lockOrientationCb :: NEvent.delayMs 150 ::
        ((hideStatusBar env).1 ++ NEvent.delayMs 50 ::
          (requestFullscreenOnContainer env).1) := by
  simp [enterVideoFullscreen, catchLog, h]

/-- Witness for C2 at a concrete android environment with the fullscreen
plugin loaded: the full trace is the lock callback, the 150 ms delay, the
plugin immersive activation with its 100 ms settle, the 50 ms delay and the
options fullscreen request, in that order. -/
theorem enterVideoFullscreen_native_sequence_witness :
    (enterVideoFullscreen
        ⟨Platform.android, true, false, false, true, false, false, false,
          false, false⟩ true).1 =
      [NEvent.lockOrientationCb, NEvent.delayMs 150,
       NEvent.pluginActivateImmersive, NEvent.delayMs 100,
       NEvent.delayMs 50, NEvent.reqFullscreenOpts] := by
  rw [enterVideoFullscreen_native_sequence
    ⟨Platform.android, true, false, false, true, false, false, false,
      false, false⟩ rfl]
  rfl

/-- C3 counterexample: with a loaded configuration, the banner shown, the
plugin available and the SDK hideBanner call failing, an out-of-view report
does invoke the SDK hideBanner but the shown flag is not cleared (the
rejection is caught and logged), so the banner is left shown while the slot
is reported out of view — refuting the claim that the controller always
clears the shown flag and that the banner is never left shown out of view. -/
theorem slot_hide_failure_leaves_banner_shown :
    (slotVisibilityEffect true
        { bannerShown := true,
          adConfig := some ⟨⟨"unit-1", false⟩, ⟨true, true⟩⟩ }
        false false
        { pluginAvailable := true, sdkShowThrows := false,
          sdkHideThrows := true }).2 = [SlotCall.sdkHideBanner] ∧
    (slotVisibilityEffect true
        { bannerShown := true,
          adConfig := some ⟨⟨"unit-1", false⟩, ⟨true, true⟩⟩ }
        false false
        { pluginAvailable := true, sdkShowThrows := false,
          sdkHideThrows := true }).1.bannerShown = true :=
  ⟨rfl, rfl⟩

/-- C3 amended: with an ad configuration loaded and the AdMob plugin
available, an out-of-view report while the banner is shown invokes exactly
the SDK hideBanner and, when that call succeeds, clears the shown flag; an
in-view report while the banner is not shown invokes exactly the SDK
showBanner with the configured ad unit and test mode and, when it succeeds,
sets the shown flag.  So provided hide calls succeed, the banner is not
left shown while the slot is reported out of view. -/
theorem slot_visibility_amended (st : SlotState) (cfg : AdCfg)
    (posTop : Bool) (env : SlotEnv) (hcfg : st.adConfig = some cfg) :
    (st.bannerShown = true → env.pluginAvailable = true →
       (slotVisibilityEffect true st false posTop env).2 =
         [SlotCall.sdkHideBanner] ∧
       (env.sdkHideThrows = false →
          (slotVisibilityEffect true st false posTop env).1.bannerShown
            = false)) ∧
    (st.bannerShown = false → env.pluginAvailable = true →
       (slotVisibilityEffect true st true posTop env).2 =
         [SlotCall.sdkShowBanner cfg.ad.adUnitId posTop
            (cfg.settings.testMode || cfg.ad.isTestMode)] ∧
       (env.sdkShowThrows = false →
          (slotVisibilityEffect true st true posTop env).1.bannerShown
            = true)) := by
  rcases st with ⟨shown, acfg⟩
  simp only [SlotState.mk.injEq] at hcfg ⊢
  subst hcfg
  constructor
  · rintro rfl hp
    constructor
    · cases hh : env.sdkHideThrows <;>
        simp [slotVisibilityEffect, slotHideBanner, hp, hh]
    · intro hh
      simp [slotVisibilityEffect, slotHideBanner, hp, hh]
  · rintro rfl hp
    constructor
    · cases hs : env.sdkShowThrows <;>
        simp [slotVisibilityEffect, slotShowBanner, hp, hs]
    · intro hs
      simp [slotVisibilityEffect, slotShowBanner, hp, hs]

/-- Witness for the amended C3 at concrete inputs: a succeeding hide on an
out-of-view report yields exactly the hideBanner call and clears the flag. -/
theorem slot_visibility_amended_witness :
    (slotVisibilityEffect true
        { bannerShown := true,
          adConfig := some ⟨⟨"unit-1", false⟩, ⟨true, true⟩⟩ }
        false false
        { pluginAvailable := true, sdkShowThrows := false,
          sdkHideThrows := false }).2 = [SlotCall.sdkHideBanner] ∧
    (slotVisibilityEffect true
        { bannerShown := true,
          adConfig := some ⟨⟨"unit-1", false⟩, ⟨true, true⟩⟩ }
        false false
        { pluginAvailable := true, sdkShowThrows := false,
          sdkHideThrows := false }).1.bannerShown = false := by
  have h := (slot_visibility_amended
    { bannerShown := true,
      adConfig := some ⟨⟨"unit-1", false⟩, ⟨true, true⟩⟩ }
    ⟨⟨"unit-1", false⟩, ⟨true, true⟩⟩ false
    { pluginAvailable := true, sdkShowThrows := false, sdkHideThrows := false }
    rfl).1 rfl rfl
  exact ⟨h.1, h.2 rfl⟩

/-- C4: every modelled exported wrapper around an external collaborator —
the ad SDK wrappers (banner, interstitial, rewarded), the status-bar and
fullscreen plugin wrappers, immersive-mode entry and exit, and the purchase
handler — catches failures of the underlying call at its own call site and
completes normally (logging or toasting), for every environment, including
those in which the underlying calls throw: no exception propagates out of
the wrapper to its caller. -/
theorem wrappers_complete_normally (e : SbEnv) (ex : ExitEnv) (a : AdEnv)
    (posTop : Bool) (user : Option String) (plan? : Option MembershipPlan)
    (bal : Rat) (pe : PurchaseEnv) :
    (showBannerAd a posTop).2 = Except.ok () ∧
    (hideBannerAd a).2 = Except.ok () ∧
    (showInterstitialAd a).2 = Except.ok () ∧
    (∃ v, (showRewardedAd a).2 = Except.ok v) ∧
    (enterImmersiveMode e).2 = Except.ok () ∧
    (exitImmersiveMode e ex).2 = Except.ok () ∧
    (hideStatusBar e).2 = Except.ok () ∧
    (showStatusBar e).2 = Except.ok () ∧
    (enterImmersiveFullscreen e).2 = Except.ok () ∧
    (exitImmersiveFullscreen e).2 = Except.ok () ∧
    (enterVideoFullscreen e true).2 = Except.ok () ∧
    (handlePurchase user plan? bal pe).2 = Except.ok () := by
  refine ⟨?_, ?_, ?_, ?_, ?_, ?_, ?_, ?_, ?_, ?_, ?_, ?_⟩
  · unfold showBannerAd
    split
    · rfl
    · exact catchLog_unit_ok _
  · unfold hideBannerAd
    split
    · rfl
    · exact catchLog_unit_ok _
  · unfold showInterstitialAd
    split
    · rfl
    · exact catchLog_unit_ok _
  · unfold showRewardedAd
    split
    · exact ⟨none, rfl⟩
    · split
      · exact ⟨none, rfl⟩
      · split
        · exact ⟨none, rfl⟩
        · split
          · exact ⟨none, rfl⟩
          · exact ⟨some a.rewardAmount, rfl⟩
  · simp only [enterImmersiveMode]
    exact catchLog_unit_ok _
  · simp only [exitImmersiveMode]
    exact catchLog_unit_ok _
  · unfold hideStatusBar
    split
    · rfl
    · exact catchLog_unit_ok _
  · unfold showStatusBar
    split
    · rfl
    · exact catchLog_unit_ok _
  · unfold enterImmersiveFullscreen
    split
    · rfl
    · exact catchLog_unit_ok _
  · unfold exitImmersiveFullscreen
    split
    · rfl
    · exact catchLog_unit_ok _
  · simp only [enterVideoFullscreen]
    exact catchLog_unit_ok _
  · rcases plan? with _ | plan
    all_goals rcases user with _ | uid
    · rfl
    · rfl
    · rfl
    · by_cases hb : bal < plan.price
      · simp [handlePurchase, hb]
      · cases hpe : pe.rpcThrows <;> simp [handlePurchase, hb, hpe]

/-- C5 counterexample: with the first external call modelled as failing, a
substitute call is re-attempted after the failure.  On android,
playWithExoPlayer makes a second plain Browser.open of the same URL after
the styled open rejects; enterVideoFullscreen makes a second plain
requestFullscreen after the request with the navigationUI option rejects.
Either retry refutes the claim that a failed invocation is never
re-attempted. -/
theorem exo_retry_counterexample :
    (playWithExoPlayer Platform.android "https://cdn.example/v.mp4"
        ⟨true, false⟩).2 =
      [{ url := "https://cdn.example/v.mp4", fullscreenStyle := true,
         toolbarColor := some "#000000" },
       { url := "https://cdn.example/v.mp4", fullscreenStyle := false,
         toolbarColor := none }] ∧
    (requestFullscreenOnContainer
        ⟨Platform.android, true, false, false, true, false, false, false,
          true, false⟩).1 =
      [NEvent.reqFullscreenOpts, NEvent.reqFullscreen] :=
  ⟨rfl, rfl⟩

/-- C5 amended: no failed external call is re-attempted, with exactly two
one-shot fallbacks: on android playWithExoPlayer retries a plain
Browser.open with the same unmodified URL after the styled open fails, and
the container fullscreen request is retried once without the navigationUI
option after the request with it fails; in both cases at most two calls are
ever made and a second call happens only after the first failed.  The other
modelled wrappers make at most one call of each kind and handle failure by
log-and-continue or a generic error toast. -/
theorem retries_only_two_fallbacks (p : Platform) (url : String)
    (env : ExoEnv) (e : SbEnv) (ex : ExitEnv) (a : AdEnv) (posTop : Bool)
    (user : Option String) (plan? : Option MembershipPlan) (bal : Rat)
    (pe : PurchaseEnv) :
    (playWithExoPlayer p url env).2.length ≤ 2 ∧
    ((playWithExoPlayer p url env).2.length = 2 →
       p = Platform.android ∧ env.openWithOptsThrows = true ∧
       (playWithExoPlayer p url env).2 =
         [{ url := url, fullscreenStyle := true,
            toolbarColor := some "#000000" },
          { url := url, fullscreenStyle := false, toolbarColor := none }]) ∧
    (requestFullscreenOnContainer e).1.length ≤ 2 ∧
    ((requestFullscreenOnContainer e).1.length = 2 →
       e.supportsReqFs = true ∧ e.reqFsOptsThrows = true ∧
       (requestFullscreenOnContainer e).1 =
         [NEvent.reqFullscreenOpts, NEvent.reqFullscreen]) ∧
    (webEnterFullscreenChain e).1.length ≤ 1 ∧
    (webExitFullscreenChain ex).1.length ≤ 1 ∧
    (showBannerAd a posTop).1.length ≤ 1 ∧
    (hideBannerAd a).1.length ≤ 1 ∧
    (showInterstitialAd a).1.Nodup ∧
    (showRewardedAd a).1.Nodup ∧
    ((handlePurchase user plan? bal pe).1.filter
        (fun x => x.isRpcCall)).length ≤ 1 := by
  refine ⟨?_, ?_, ?_, ?_, ?_, ?_, ?_, ?_, ?_, ?_, ?_⟩
  · rcases env with ⟨t1, t2⟩
    cases p <;> cases t1 <;> cases t2 <;>
      simp [playWithExoPlayer, Platform.isNative]
  · rcases env with ⟨t1, t2⟩
    cases p <;> cases t1 <;> cases t2 <;>
      simp [playWithExoPlayer, Platform.isNative]
  · unfold requestFullscreenOnContainer
    split
    · split <;> simp
    · split
      · simp
      · split
        · simp
        · split <;> simp
  · unfold requestFullscreenOnContainer
    split
    · split <;> simp_all
    · split
      · simp
      · split
        · simp
        · split <;> simp
  · unfold webEnterFullscreenChain
    split
    · simp
    · split
      · simp
      · split
        · simp
        · split <;> simp
  · unfold webExitFullscreenChain
    split
    · simp
    · split
      · simp
      · split
        · simp
        · split <;> simp
  · unfold showBannerAd
    split <;> simp [catchLog]
  · unfold hideBannerAd
    split <;> simp [catchLog]
  · unfold showInterstitialAd showInterstitialAdBody
    split
    · simp
    · split <;> simp [catchLog]
  · unfold showRewardedAd
    split
    · simp
    · split
      · simp
      · split
        · simp
        · split <;> simp
  · rcases plan? with _ | plan
    all_goals rcases user with _ | uid
    · simp [handlePurchase]
    · simp [handlePurchase]
    · simp [handlePurchase]
    · by_cases hb : bal < plan.price
      · simp [handlePurchase, hb, PurchaseAction.isRpcCall]
      · cases hpe : pe.rpcThrows <;>
          simp [handlePurchase, hb, hpe, PurchaseAction.isRpcCall]

/-- Witness for the amended C5 at the concrete failing-open input: the
android fallback case yields exactly the styled open followed by the plain
open of the same URL. -/
theorem retries_only_two_fallbacks_witness :
    Platform.android = Platform.android ∧
    (⟨true, false⟩ : ExoEnv).openWithOptsThrows = true ∧
    (playWithExoPlayer Platform.android "https://cdn.example/v.mp4"
        ⟨true, false⟩).2 =
      [{ url := "https://cdn.example/v.mp4", fullscreenStyle := true,
         toolbarColor := some "#000000" },
       { url := "https://cdn.example/v.mp4", fullscreenStyle := false,
         toolbarColor := none }] :=
  (retries_only_two_fallbacks Platform.android "https://cdn.example/v.mp4"
    ⟨true, false⟩
    ⟨Platform.android, true, false, false, true, false, false, false, true,
      false⟩
    ⟨false, false, false, false, false⟩
    ⟨true, false, false, false, false, false, false, false, false, 0⟩
    false none none 0 ⟨false⟩).2.1 rfl

/-- C9: initializeAdMob is idempotent: once the module-level flag is set by
a successful initialization, every later call returns without invoking the
ad SDK initialize again; on a non-native platform no SDK call is ever made;
and over any session of calls the SDK initialize succeeds at most once. -/
theorem initAdMob_at_most_once :
    (∀ env : AdEnv, initAdMobStep env true = (true, [])) ∧
    (∀ (env : AdEnv) (flagSet : Bool), env.native = false →
       (initAdMobStep env flagSet).2 = []) ∧
    (∀ (envs : List AdEnv) (flagSet : Bool),
       initSuccesses envs flagSet ≤ 1) := by
  have hflag : ∀ envs : List AdEnv, initSuccesses envs true = 0 := by
    intro envs
    induction envs with
    | nil => rfl
    | cons env rest ih => simp [initSuccesses, initAdMobStep, ih]
  refine ⟨?_, ?_, ?_⟩
  · intro env
    simp [initAdMobStep]
  · intro env flagSet h
    simp [initAdMobStep, h]
  · intro envs
    induction envs with
    | nil => intro flagSet; simp [initSuccesses]
    | cons env rest ih =>
      intro flagSet
      cases flagSet
      · by_cases hn : env.native <;> by_cases ht : env.adInitThrows <;>
          simp [initSuccesses, initAdMobStep, hn, ht, hflag, ih false]
      · simp [initSuccesses, initAdMobStep, hflag]

/-- Witness for C9 at concrete inputs: a non-native call makes no SDK call,
and a session of three calls (a failing attempt, a succeeding one, and a
redundant one) performs exactly one successful initialization. -/
theorem initAdMob_at_most_once_witness :
    (initAdMobStep
        ⟨false, false, false, false, false, false, false, false, false, 0⟩
        false).2 = [] ∧
    initSuccesses
      [⟨true, true, false, false, false, false, false, false, false, 0⟩,
       ⟨true, false, false, false, false, false, false, false, false, 0⟩,
       ⟨true, false, false, false, false, false, false, false, false, 0⟩]
      false ≤ 1 :=
  ⟨initAdMob_at_most_once.2.1
     ⟨false, false, false, false, false, false, false, false, false, 0⟩
     false rfl,
   initAdMob_at_most_once.2.2
     [⟨true, true, false, false, false, false, false, false, false, 0⟩,
      ⟨true, false, false, false, false, false, false, false, false, 0⟩,
      ⟨true, false, false, false, false, false, false, false, false, 0⟩]
     false⟩

end StreamApp
